import Mathlib

/-!
Verification of the VirtIO-MMIO transport / virtqueue engine and block
front end of the spike-virtio-devices repository, together with the
SiFive UART load path.  The definitions below are a shallow embedding of
the C/C++ source (virtio.c / virtioblk.cc and sifive_uart.cc): guest
memory is a byte function, machine integers are Nat with explicit
truncation where the source truncates, the unbounded descriptor-chain
walks of the source (which can loop forever on a cyclic chain) take an
explicit fuel argument, and the device-recv function pointer of
VIRTIODevice is passed as an explicit function parameter.
-/

namespace VirtioSpec

/-- Guest physical memory, one byte per address (accessed through the
simulator's debug MMU in the source; modelled as a plain byte map). -/
abbrev Mem := Nat → Nat

/-- Byte load (mmu load of uint8). -/
def read8 (m : Mem) (a : Nat) : Nat := m a % 256

/-- Byte store (mmu store of uint8). -/
def write8 (m : Mem) (a v : Nat) : Mem := fun x => if x = a then v % 256 else m x

/-- Little-endian 16-bit load: virtio_read16. -/
def read16 (m : Mem) (a : Nat) : Nat := read8 m a + 256 * read8 m (a + 1)

/-- Little-endian 16-bit store: virtio_write16 (truncates to 16 bits). -/
def write16 (m : Mem) (a v : Nat) : Mem := write8 (write8 m a v) (a + 1) (v / 256)

/-- Little-endian 32-bit load. -/
def read32 (m : Mem) (a : Nat) : Nat := read16 m a + 65536 * read16 m (a + 2)

/-- Little-endian 32-bit store: virtio_write32 (truncates to 32 bits). -/
def write32 (m : Mem) (a v : Nat) : Mem :=
  write8 (write8 (write8 (write8 m a v) (a + 1) (v / 256)) (a + 2) (v / 65536)) (a + 3) (v / 16777216)

/-- Little-endian 64-bit load (used for descriptor guest addresses). -/
def read64 (m : Mem) (a : Nat) : Nat := read32 m a + 4294967296 * read32 m (a + 4)

/-- The byte sequence read at a guest address: the net effect of
virtio_memcpy_from_ram, whose per-page splitting copies byte by byte. -/
def readBytes (m : Mem) (a n : Nat) : List Nat := (List.range n).map fun i => read8 m (a + i)

/-- Store a byte sequence at a guest address: the net effect of
virtio_memcpy_to_ram. -/
def writeBytes (m : Mem) (a : Nat) : List Nat → Mem
  | [] => m
  | b :: bs => writeBytes (write8 m a b) (a + 1) bs

/-- Little-endian value of a byte list (get_le32 / get_le64 style). -/
def bytesToNat : List Nat → Nat
  | [] => 0
  | b :: bs => b % 256 + 256 * bytesToNat bs

/-- The len bytes of a register value written little-endian into an MMIO
response buffer (read_little_endian_reg). -/
def leBytes (v n : Nat) : List Nat := (List.range n).map fun i => v / 256 ^ i % 256

/-- Per-queue state: the QueueState struct of virtio.c. -/
structure QueueState where
  ready : Nat
  num : Nat
  last_avail_idx : Nat
  desc_addr : Nat
  avail_addr : Nat
  used_addr : Nat
  manual_recv : Bool

/-- Device state: the VIRTIODevice struct, flattened together with the
block-device derived struct VIRTIOBlockDevice and its BlockRequest record
(req_in_progress / req fields).  The IRQ output line level is irq_level;
set_irq(s->irq, b) is modelled as assignment to it.  queue_sel is kept as
Fin 8 because every write to it is guarded by val < MAX_QUEUE = 8. -/
structure VIRTIODevice where
  int_status : Nat
  status : Nat
  device_features_sel : Nat
  device_features : Nat
  device_id : Nat
  vendor_id : Nat
  queue_sel : Fin 8
  queue : Fin 8 → QueueState
  irq_level : Bool
  config_space : Nat → Nat
  config_space_size : Nat
  req_in_progress : Bool
  req_type : Nat
  req_queue_idx : Fin 8
  req_desc_idx : Nat
  req_write_size : Nat
  req_buf : Int → Nat

/-- The VIRTIODeviceRecvFunc function pointer: given the device, guest
memory, queue index, head descriptor index and the read/write sizes it
returns the int result together with the updated device and memory. -/
abbrev RecvFn := VIRTIODevice → Mem → Fin 8 → Nat → Nat → Nat → Int × VIRTIODevice × Mem

/-- virtio_reset: clears the register file and every queue, setting each
queue's num back to MAX_QUEUE_NUM = 16 (not zero). -/
def virtio_reset (s : VIRTIODevice) : VIRTIODevice :=
  { s with
    status := 0
    queue_sel := 0
    device_features_sel := 0
    int_status := 0
    queue := fun _ =>
      { ready := 0, num := 16, last_avail_idx := 0
        desc_addr := 0, avail_addr := 0, used_addr := 0, manual_recv := false } }

/-- virtio_consume_desc: publish (desc_idx, desc_len) on the used ring of
queue q.  Program order in the source: read the 16-bit counter at
used + 2, store counter + 1 there, store the two 32-bit halves of the
ring entry at used + 4 + (counter & (num-1))*8, set int_status bit 0,
raise the IRQ line. -/
def virtio_consume_desc (s : VIRTIODevice) (mem : Mem) (q : Fin 8)
    (desc_idx desc_len : Nat) : VIRTIODevice × Mem :=
  let qs := s.queue q
  let index := read16 mem (qs.used_addr + 2)
  let mem1 := write16 mem (qs.used_addr + 2) (index + 1)
  let a := qs.used_addr + 4 + (index &&& (qs.num - 1)) * 8
  let mem2 := write32 mem1 a desc_idx
  let mem3 := write32 mem2 (a + 4) desc_len
  ({ s with int_status := s.int_status ||| 1, irq_level := true }, mem3)

/-- One observable step of virtio_consume_desc, for stating in which
order the stores and the IRQ raise are issued. -/
inductive MemEvent where
  | store16 (addr val : Nat)
  | store32 (addr val : Nat)
  | irqSet (level : Bool)
deriving DecidableEq

/-- The sequence of guest-memory stores and IRQ transitions issued by
virtio_consume_desc, in the program order of the source. -/
def virtio_consume_desc_events (s : VIRTIODevice) (mem : Mem) (q : Fin 8)
    (desc_idx desc_len : Nat) : List MemEvent :=
  let qs := s.queue q
  let index := read16 mem (qs.used_addr + 2)
  let a := qs.used_addr + 4 + (index &&& (qs.num - 1)) * 8
  [MemEvent.store16 (qs.used_addr + 2) (index + 1),
   MemEvent.store32 a desc_idx,
   MemEvent.store32 (a + 4) desc_len,
   MemEvent.irqSet true]

/-- Apply one event to guest memory (IRQ transitions leave memory alone). -/
def applyEvent (m : Mem) : MemEvent → Mem
  | MemEvent.store16 a v => write16 m a v
  | MemEvent.store32 a v => write32 m a v
  | MemEvent.irqSet _ => m

/-- Apply a list of events in order. -/
def applyEvents (m : Mem) : List MemEvent → Mem
  | [] => m
  | e :: es => applyEvents (applyEvent m e) es

/-- A split-virtqueue descriptor: the VIRTIODesc struct (16 bytes,
little-endian: addr u64, len u32, flags u16, next u16). -/
structure VIRTIODesc where
  addr : Nat
  len : Nat
  flags : Nat
  next : Nat

/-- get_desc: read the 16-byte descriptor desc_idx from the descriptor
table at desc_addr. -/
def get_desc (mem : Mem) (desc_addr desc_idx : Nat) : VIRTIODesc :=
  { addr := read64 mem (desc_addr + desc_idx * 16)
    len := read32 mem (desc_addr + desc_idx * 16 + 8)
    flags := read16 mem (desc_addr + desc_idx * 16 + 12)
    next := read16 mem (desc_addr + desc_idx * 16 + 14) }

/-- Result of the seek loop of memcpy_to_from_queue: the descriptor (with
its index) holding the requested offset, the direction-mismatch /
chain-exhausted error (-1 in the source), or fuel exhaustion (the source
would loop forever on a cyclic chain). -/
inductive SeekRes where
  | found (d : VIRTIODesc) (desc_idx offset : Nat)
  | errv
  | fuelOut

/-- The `find the descriptor at offset` loop of memcpy_to_from_queue:
fflag is f_write_flag (0 when reading from the queue, 2 when writing). -/
def cpy_seek (mem : Mem) (desc_addr fflag : Nat) :
    VIRTIODesc → Nat → Nat → Nat → SeekRes
  | _, _, _, 0 => SeekRes.fuelOut
  | d, idx, offset, fuel + 1 =>
    if d.flags &&& 2 ≠ fflag then SeekRes.errv
    else if offset < d.len then SeekRes.found d idx offset
    else if d.flags &&& 1 = 0 then SeekRes.errv
    else cpy_seek mem desc_addr fflag (get_desc mem desc_addr d.next) d.next (offset - d.len) fuel

/-- Result of a queue-to-buffer copy: the bytes read so far together with
success, the -1 error (partial bytes kept, as the source's caller keeps
its partially filled buffer), or fuel exhaustion. -/
inductive CpyRes where
  | ok (bytes : List Nat)
  | errv (bytes : List Nat)
  | fuelOut
deriving DecidableEq

/-- The copy loop of memcpy_to_from_queue in the from-queue direction
(direction flag 0): stream count bytes out of the chain starting at the
given descriptor/offset. -/
def cpy_read_loop (mem : Mem) (desc_addr : Nat) :
    VIRTIODesc → Nat → Nat → List Nat → Nat → CpyRes
  | _, _, _, _, 0 => CpyRes.fuelOut
  | d, offset, count, acc, fuel + 1 =>
    let l := min count (d.len - offset)
    let acc1 := acc ++ readBytes mem (d.addr + offset) l
    if count - l = 0 then CpyRes.ok acc1
    else if offset + l = d.len then
      if d.flags &&& 1 = 0 then CpyRes.errv acc1
      else
        let d1 := get_desc mem desc_addr d.next
        if d1.flags &&& 2 ≠ 0 then CpyRes.errv acc1
        else cpy_read_loop mem desc_addr d1 0 (count - l) acc1 fuel
    else cpy_read_loop mem desc_addr d (offset + l) (count - l) acc1 fuel

/-- memcpy_from_queue: read count bytes from the device-readable part of
the chain headed at desc_idx, starting offset bytes in. -/
def memcpy_from_queue (mem : Mem) (desc_addr : Nat) (desc_idx offset count fuel : Nat) : CpyRes :=
  if count = 0 then CpyRes.ok []
  else
    match cpy_seek mem desc_addr 0 (get_desc mem desc_addr desc_idx) desc_idx offset fuel with
    | SeekRes.found d _ off => cpy_read_loop mem desc_addr d off count [] fuel
    | SeekRes.errv => CpyRes.errv []
    | SeekRes.fuelOut => CpyRes.fuelOut

/-- Success flag of a buffer-to-queue copy. -/
inductive CpyFlag where
  | okF
  | errF
  | outF
deriving DecidableEq

/-- The copy loop of memcpy_to_from_queue in the to-queue direction
(direction flag 2): stream the bytes into the chain; the memory reflects
all stores issued before a failure, as in the source. -/
def cpy_write_loop (mem : Mem) (desc_addr : Nat) :
    VIRTIODesc → Nat → List Nat → Nat → Mem × CpyFlag
  | _, _, _, 0 => (mem, CpyFlag.outF)
  | d, offset, bytes, fuel + 1 =>
    let l := min bytes.length (d.len - offset)
    let mem1 := writeBytes mem (d.addr + offset) (bytes.take l)
    let rest := bytes.drop l
    if rest.length = 0 then (mem1, CpyFlag.okF)
    else if offset + l = d.len then
      if d.flags &&& 1 = 0 then (mem1, CpyFlag.errF)
      else
        let d1 := get_desc mem1 desc_addr d.next
        if d1.flags &&& 2 ≠ 2 then (mem1, CpyFlag.errF)
        else cpy_write_loop mem1 desc_addr d1 0 rest fuel
    else cpy_write_loop mem1 desc_addr d (offset + l) rest fuel

/-- The `find the first write descriptor` loop of memcpy_to_from_queue
(to-queue direction only). -/
def cpy_find_write (mem : Mem) (desc_addr : Nat) : VIRTIODesc → Nat → Nat → SeekRes
  | _, _, 0 => SeekRes.fuelOut
  | d, idx, fuel + 1 =>
    if d.flags &&& 2 = 2 then SeekRes.found d idx 0
    else if d.flags &&& 1 = 0 then SeekRes.errv
    else cpy_find_write mem desc_addr (get_desc mem desc_addr d.next) d.next fuel

/-- memcpy_to_queue: write the byte list into the device-writable part of
the chain headed at desc_idx, starting offset bytes into that part.  The
source returns -1 on a malformed chain but its callers ignore the return
value, so the (possibly partially written) memory is returned in every
case. -/
def memcpy_to_queue (mem : Mem) (desc_addr : Nat) (desc_idx offset : Nat)
    (bytes : List Nat) (fuel : Nat) : Mem × CpyFlag :=
  if bytes.length = 0 then (mem, CpyFlag.okF)
  else
    match cpy_find_write mem desc_addr (get_desc mem desc_addr desc_idx) desc_idx fuel with
    | SeekRes.found d idx _ =>
      match cpy_seek mem desc_addr 2 d idx offset fuel with
      | SeekRes.found d1 _ off => cpy_write_loop mem desc_addr d1 off bytes fuel
      | SeekRes.errv => (mem, CpyFlag.errF)
      | SeekRes.fuelOut => (mem, CpyFlag.outF)
    | SeekRes.errv => (mem, CpyFlag.errF)
    | SeekRes.fuelOut => (mem, CpyFlag.outF)

/-- Result of get_desc_rw_size: the total read (device-readable prefix)
and write (device-writable suffix) byte counts, the -1 error for a
write-flagged descriptor followed by a read-flagged one, or fuel
exhaustion. -/
inductive RwRes where
  | ok (read write : Nat)
  | errv
  | fuelOut

/-- The second loop of get_desc_rw_size: sum the device-writable suffix. -/
def rw_write_walk (mem : Mem) (desc_addr : Nat) : VIRTIODesc → Nat → Nat → RwRes
  | _, _, 0 => RwRes.fuelOut
  | d, w, fuel + 1 =>
    if d.flags &&& 2 = 0 then RwRes.errv
    else if d.flags &&& 1 = 0 then RwRes.ok 0 (w + d.len)
    else rw_write_walk mem desc_addr (get_desc mem desc_addr d.next) (w + d.len) fuel

/-- The first loop of get_desc_rw_size: sum the device-readable prefix,
handing over to the write walk at the first write-flagged descriptor. -/
def rw_read_walk (mem : Mem) (desc_addr : Nat) : VIRTIODesc → Nat → Nat → RwRes
  | _, _, 0 => RwRes.fuelOut
  | d, r, fuel + 1 =>
    if d.flags &&& 2 ≠ 0 then
      match rw_write_walk mem desc_addr d 0 fuel with
      | RwRes.ok _ w => RwRes.ok r w
      | RwRes.errv => RwRes.errv
      | RwRes.fuelOut => RwRes.fuelOut
    else if d.flags &&& 1 = 0 then RwRes.ok (r + d.len) 0
    else rw_read_walk mem desc_addr (get_desc mem desc_addr d.next) (r + d.len) fuel

/-- get_desc_rw_size for the chain headed at desc_idx. -/
def get_desc_rw_size (mem : Mem) (desc_addr desc_idx fuel : Nat) : RwRes :=
  rw_read_walk mem desc_addr (get_desc mem desc_addr desc_idx) 0 fuel

/-- What the notify loop did with one available head: either it invoked
the device callback (recording the callback's return value) or the head's
size walk failed with -1 and the callback was skipped. -/
inductive NotifyStep where
  | invoked (head : Nat) (ret : Int)
  | skipped (head : Nat)
deriving DecidableEq

/-- Result of queue_notify: updated device and memory, the per-head log,
and whether the loop ran to completion (false only when fuel ran out,
where the source would not have terminated). -/
structure NotifyOut where
  dev : VIRTIODevice
  mem : Mem
  log : List NotifyStep
  finished : Bool

/-- Advance last_avail_idx of queue q by one (16-bit wrap-around). -/
def bump_avail (s : VIRTIODevice) (q : Fin 8) : VIRTIODevice :=
  let qs1 := { s.queue q with last_avail_idx := ((s.queue q).last_avail_idx + 1) % 65536 }
  { s with queue := Function.update s.queue q qs1 }

/-- The while loop of queue_notify: walk heads until last_avail_idx
reaches the avail index read before the loop; a head whose
get_desc_rw_size fails is skipped but still advanced past; a callback
return below 0 stops the loop without advancing past that head. -/
def queue_notify_loop (recv : RecvFn) (chainFuel : Nat) (q : Fin 8) (avail_idx : Nat) :
    VIRTIODevice → Mem → Nat → NotifyOut
  | s, mem, 0 => ⟨s, mem, [], false⟩
  | s, mem, fuel + 1 =>
    if (s.queue q).last_avail_idx = avail_idx then ⟨s, mem, [], true⟩
    else
      let qs := s.queue q
      let head := read16 mem (qs.avail_addr + 4 + (qs.last_avail_idx &&& (qs.num - 1)) * 2)
      match get_desc_rw_size mem qs.desc_addr head chainFuel with
      | RwRes.ok r w =>
        let t := recv s mem q head r w
        if t.1 < 0 then ⟨t.2.1, t.2.2, [NotifyStep.invoked head t.1], true⟩
        else
          let o := queue_notify_loop recv chainFuel q avail_idx (bump_avail t.2.1 q) t.2.2 fuel
          ⟨o.dev, o.mem, NotifyStep.invoked head t.1 :: o.log, o.finished⟩
      | RwRes.errv =>
        let o := queue_notify_loop recv chainFuel q avail_idx (bump_avail s q) mem fuel
        ⟨o.dev, o.mem, NotifyStep.skipped head :: o.log, o.finished⟩
      | RwRes.fuelOut => ⟨s, mem, [], false⟩

/-- queue_notify: a no-op for manual_recv queues, otherwise read avail.idx
once (the 16-bit counter at avail + 2) and run the loop. -/
def queue_notify (recv : RecvFn) (chainFuel : Nat) (s : VIRTIODevice) (mem : Mem)
    (q : Fin 8) (fuel : Nat) : NotifyOut :=
  if (s.queue q).manual_recv then ⟨s, mem, [], true⟩
  else queue_notify_loop recv chainFuel q (read16 mem ((s.queue q).avail_addr + 2)) s mem fuel

/-- virtio_config_read.  For a device whose config_space_size is at least
1 the Nat subtractions in the bounds agree with the unsigned subtractions
of the source. -/
def virtio_config_read (s : VIRTIODevice) (offset size_log2 : Nat) : Nat :=
  match size_log2 with
  | 0 => if offset < s.config_space_size then s.config_space offset % 256 else 0
  | 1 => if offset < s.config_space_size - 1 then
           s.config_space offset % 256 + 256 * (s.config_space (offset + 1) % 256)
         else 0
  | 2 => if offset < s.config_space_size - 3 then
           s.config_space offset % 256 + 256 * (s.config_space (offset + 1) % 256) +
           65536 * (s.config_space (offset + 2) % 256) +
           16777216 * (s.config_space (offset + 3) % 256)
         else 0
  | _ => 0

/-- virtio_config_write (the block device installs no config_write
callback, so none is modelled). -/
def virtio_config_write (s : VIRTIODevice) (offset val size_log2 : Nat) : VIRTIODevice :=
  match size_log2 with
  | 0 => if offset < s.config_space_size then
           { s with config_space := fun x => if x = offset then val % 256 else s.config_space x }
         else s
  | 1 => if offset < s.config_space_size - 1 then
           { s with config_space := fun x =>
               if x = offset then val % 256
               else if x = offset + 1 then val / 256 % 256 else s.config_space x }
         else s
  | 2 => if offset < s.config_space_size - 3 then
           { s with config_space := fun x =>
               if x = offset then val % 256
               else if x = offset + 1 then val / 256 % 256
               else if x = offset + 2 then val / 65536 % 256
               else if x = offset + 3 then val / 16777216 % 256 else s.config_space x }
         else s
  | _ => s

/-- virtio_mmio_read: the 32-bit register file; non-word widths below the
config window read 0.  Reads of the 64-bit queue addresses truncate to
the selected 32-bit half as the uint32_t assignments in the source do. -/
def virtio_mmio_read (s : VIRTIODevice) (offset size_log2 : Nat) : Nat :=
  if 0x100 ≤ offset then virtio_config_read s (offset - 0x100) size_log2
  else if size_log2 = 2 then
    if offset = 0x000 then 0x74726976
    else if offset = 0x004 then 2
    else if offset = 0x008 then s.device_id
    else if offset = 0x00c then s.vendor_id
    else if offset = 0x010 then
      (if s.device_features_sel = 0 then s.device_features
       else if s.device_features_sel = 1 then 1 else 0)
    else if offset = 0x014 then s.device_features_sel
    else if offset = 0x030 then s.queue_sel.val
    else if offset = 0x034 then 16
    else if offset = 0x038 then (s.queue s.queue_sel).num
    else if offset = 0x044 then (s.queue s.queue_sel).ready
    else if offset = 0x060 then s.int_status
    else if offset = 0x070 then s.status
    else if offset = 0x080 then (s.queue s.queue_sel).desc_addr % 4294967296
    else if offset = 0x084 then (s.queue s.queue_sel).desc_addr / 4294967296 % 4294967296
    else if offset = 0x090 then (s.queue s.queue_sel).avail_addr % 4294967296
    else if offset = 0x094 then (s.queue s.queue_sel).avail_addr / 4294967296 % 4294967296
    else if offset = 0x0a0 then (s.queue s.queue_sel).used_addr % 4294967296
    else if offset = 0x0a4 then (s.queue s.queue_sel).used_addr / 4294967296 % 4294967296
    else if offset = 0x0fc then 0
    else 0
  else 0

/-- Replace the selected queue's state. -/
def updSelQ (s : VIRTIODevice) (g : QueueState → QueueState) : VIRTIODevice :=
  { s with queue := Function.update s.queue s.queue_sel (g (s.queue s.queue_sel)) }

/-- The body of virtio_mmio_write, over the already-truncated 32-bit
value v (the wrapper below performs the uint32_t truncation of the
source's parameter).  VIRTIO_ADDR_BITS is modelled from the spec as 64
(virtio.h is not in the sources), so the QUEUE_*_HIGH cases compose the
upper halves. -/
def virtio_mmio_write_core (recv : RecvFn) (chainFuel notifyFuel : Nat)
    (s : VIRTIODevice) (mem : Mem) (offset v size_log2 : Nat) : VIRTIODevice × Mem :=
  if 0x100 ≤ offset then (virtio_config_write s (offset - 0x100) v size_log2, mem)
  else if size_log2 = 2 then
    if offset = 0x014 then ({ s with device_features_sel := v }, mem)
    else if offset = 0x030 then
      (if h : v < 8 then { s with queue_sel := ⟨v, h⟩ } else s, mem)
    else if offset = 0x038 then
      (if v &&& (v - 1) = 0 ∧ 0 < v then updSelQ s (fun qs => { qs with num := v }) else s, mem)
    else if offset = 0x080 then
      (updSelQ s (fun qs => { qs with desc_addr := qs.desc_addr / 4294967296 * 4294967296 + v }), mem)
    else if offset = 0x084 then
      (updSelQ s (fun qs => { qs with desc_addr := qs.desc_addr % 4294967296 + v * 4294967296 }), mem)
    else if offset = 0x090 then
      (updSelQ s (fun qs => { qs with avail_addr := qs.avail_addr / 4294967296 * 4294967296 + v }), mem)
    else if offset = 0x094 then
      (updSelQ s (fun qs => { qs with avail_addr := qs.avail_addr % 4294967296 + v * 4294967296 }), mem)
    else if offset = 0x0a0 then
      (updSelQ s (fun qs => { qs with used_addr := qs.used_addr / 4294967296 * 4294967296 + v }), mem)
    else if offset = 0x0a4 then
      (updSelQ s (fun qs => { qs with used_addr := qs.used_addr % 4294967296 + v * 4294967296 }), mem)
    else if offset = 0x070 then
      (if v = 0 then virtio_reset { s with status := v, irq_level := false }
       else { s with status := v }, mem)
    else if offset = 0x044 then (updSelQ s (fun qs => { qs with ready := v &&& 1 }), mem)
    else if offset = 0x050 then
      (if h : v < 8 then
        let o := queue_notify recv chainFuel s mem ⟨v, h⟩ notifyFuel
        (o.dev, o.mem)
       else (s, mem))
    else if offset = 0x064 then
      (let is1 := s.int_status &&& (4294967295 - v)
       { s with int_status := is1, irq_level := if is1 = 0 then false else s.irq_level }, mem)
    else (s, mem)
  else (s, mem)

/-- virtio_mmio_write: the uint32_t value parameter truncates the
incoming value to 32 bits at the call boundary. -/
def virtio_mmio_write (recv : RecvFn) (chainFuel notifyFuel : Nat)
    (s : VIRTIODevice) (mem : Mem) (offset val size_log2 : Nat) : VIRTIODevice × Mem :=
  virtio_mmio_write_core recv chainFuel notifyFuel s mem offset (val % 4294967296) size_log2

/-- A sequence of MMIO writes, applied left to right. -/
def virtio_mmio_writes (recv : RecvFn) (chainFuel notifyFuel : Nat) :
    VIRTIODevice → Mem → List (Nat × Nat × Nat) → VIRTIODevice × Mem
  | s, mem, [] => (s, mem)
  | s, mem, (off, val, sz) :: ws =>
    let p := virtio_mmio_write recv chainFuel notifyFuel s mem off val sz
    virtio_mmio_writes recv chainFuel notifyFuel p.1 p.2 ws

/-- The block backend capability used by the front end: return codes of
bf_read_async / bf_write_async and the backing bytes a successful
synchronous read deposits in the request buffer.  The in-tree file
backend is synchronous: both return codes are always 0 or -1. -/
structure BlockBackend where
  read_ret : Nat → Nat → Int
  read_data : Nat → Nat
  write_ret : Nat → Nat → Int

/-- Result of virtio_block_req_end: the updated device and memory, the
abort() of the default case, or fuel exhaustion in a chain walk. -/
inductive ReqEndRes where
  | done (dev : VIRTIODevice) (mem : Mem)
  | abortRun
  | fuelOut

/-- virtio_block_req_end: write the status byte, copy the response to the
queue (return value ignored by the source) and publish the used entry:
write_size bytes for an IN request, 1 byte for an OUT request.  For an IN
request the status byte is stored at buffer index write_size - 1 computed
in int arithmetic, which is -1 when write_size = 0 (a one-byte heap
underflow in the source; the modelled buffer simply holds it at a
negative index where the copy to the queue never looks). -/
def virtio_block_req_end (s : VIRTIODevice) (mem : Mem) (ret : Int) (fuel : Nat) : ReqEndRes :=
  let statusByte : Nat := if ret < 0 then 1 else 0
  match s.req_type with
  | 0 =>
    let ws := s.req_write_size
    let buf : Int → Nat := fun i => if i = (ws : Int) - 1 then statusByte else s.req_buf i
    let bytes := (List.range ws).map fun i => buf (Int.ofNat i)
    let p := memcpy_to_queue mem (s.queue s.req_queue_idx).desc_addr s.req_desc_idx 0 bytes fuel
    if p.2 = CpyFlag.outF then ReqEndRes.fuelOut
    else
      let r := virtio_consume_desc s p.1 s.req_queue_idx s.req_desc_idx ws
      ReqEndRes.done r.1 r.2
  | 1 =>
    let p := memcpy_to_queue mem (s.queue s.req_queue_idx).desc_addr s.req_desc_idx 0 [statusByte] fuel
    if p.2 = CpyFlag.outF then ReqEndRes.fuelOut
    else
      let r := virtio_consume_desc s p.1 s.req_queue_idx s.req_desc_idx 1
      ReqEndRes.done r.1 r.2
  | _ => ReqEndRes.abortRun

/-- Result of virtio_block_recv_request: the int return value with the
updated device and memory, a failed assert (write_size >= 1 for an OUT
request), the abort() of virtio_block_req_end, or fuel exhaustion. -/
inductive BlkRes where
  | ret (rv : Int) (dev : VIRTIODevice) (mem : Mem)
  | assertFail
  | abortRun
  | fuelOut

/-- virtio_block_recv_request: the device_recv callback of the block
device.  Returns -1 while a request is in progress; returns 0 without any
publication when the header copy fails or the request type is neither IN
nor OUT; for IN the request buffer is a fresh allocation (indeterminate
malloc bytes modelled as zeros) of write_size bytes, filled from the
backend when the synchronous read succeeds, and completion publishes via
virtio_block_req_end. -/
def virtio_block_recv_request (bs : BlockBackend) (s : VIRTIODevice) (mem : Mem)
    (queue_idx : Fin 8) (desc_idx read_size write_size fuel : Nat) : BlkRes :=
  if s.req_in_progress then BlkRes.ret (-1) s mem
  else
    match memcpy_from_queue mem (s.queue queue_idx).desc_addr desc_idx 0 16 fuel with
    | CpyRes.errv _ => BlkRes.ret 0 s mem
    | CpyRes.fuelOut => BlkRes.fuelOut
    | CpyRes.ok hdr =>
      let htype := bytesToNat (hdr.take 4)
      let hsector := bytesToNat ((hdr.drop 8).take 8)
      let s1 := { s with req_type := htype, req_queue_idx := queue_idx, req_desc_idx := desc_idx }
      match htype with
      | 0 =>
        let n := (write_size - 1) / 512
        let rv := bs.read_ret hsector n
        let buf : Int → Nat := fun i =>
          if rv = 0 ∧ 0 ≤ i ∧ i < (n * 512 : Int) then bs.read_data (hsector * 512 + i.toNat)
          else 0
        let s2 := { s1 with req_buf := buf, req_write_size := write_size }
        if 0 < rv then BlkRes.ret 0 { s2 with req_in_progress := true } mem
        else
          match virtio_block_req_end s2 mem rv fuel with
          | ReqEndRes.done s3 mem3 => BlkRes.ret 0 s3 mem3
          | ReqEndRes.abortRun => BlkRes.abortRun
          | ReqEndRes.fuelOut => BlkRes.fuelOut
      | 1 =>
        if write_size < 1 then BlkRes.assertFail
        else
          let len := read_size - 16
          match memcpy_from_queue mem (s.queue queue_idx).desc_addr desc_idx 16 len fuel with
          | CpyRes.fuelOut => BlkRes.fuelOut
          | _ =>
            let rv := bs.write_ret hsector (len / 512)
            if 0 < rv then BlkRes.ret 0 { s1 with req_in_progress := true } mem
            else
              match virtio_block_req_end s1 mem rv fuel with
              | ReqEndRes.done s3 mem3 => BlkRes.ret 0 s3 mem3
              | ReqEndRes.abortRun => BlkRes.abortRun
              | ReqEndRes.fuelOut => BlkRes.fuelOut
      | _ => BlkRes.ret 0 s1 mem

/-- virtioblk_t::load: widths 1 and 2 return zero-filled bytes with
success, widths 4 and 8 return register values, every other width
(including 0, 3, 5, 6, 7 and anything above 8) returns failure; the
address is never checked. -/
def virtioblk_load (s : VIRTIODevice) (addr len : Nat) : Option (List Nat) :=
  if 8 < len then none
  else if len = 1 then some (leBytes 0 1)
  else if len = 2 then some (leBytes 0 2)
  else if len = 4 then some (leBytes (virtio_mmio_read s addr 2) 4)
  else if len = 8 then
    some (leBytes (virtio_mmio_read s addr 2 |||
                   (virtio_mmio_read s (addr + 4) 2) <<< 32) 8)
  else none

/-- The sifive_uart_t register state (sifive_uart.h is not in the
sources; the register fields follow the spec). -/
structure sifive_uart_t where
  txctrl : Nat
  rxctrl : Nat
  ie : Nat
  div_reg : Nat
  rx_fifo : List Nat

/-- Modelled from the spec: read_rxfifo of the missing sifive_uart.h
header pops one byte from the software RX FIFO, returning 0x80000000
(bit 31 = empty flag) when the FIFO is empty. -/
def read_rxfifo (u : sifive_uart_t) : Nat × sifive_uart_t :=
  match u.rx_fifo with
  | [] => (0x80000000, u)
  | b :: rest => (b % 256, { u with rx_fifo := rest })

/-- Modelled from the spec: read_ip of the missing sifive_uart.h header;
IP.tx (bit 0) is always 1 and IP.rx (bit 1) is 1 whenever the RX FIFO is
non-empty. -/
def read_ip (u : sifive_uart_t) : Nat :=
  1 ||| (if u.rx_fifo = [] then 0 else 2)

/-- Result of sifive_uart_t::load: success with the response bytes,
failure (bus error), or the abort() of the default case. -/
inductive UartRes where
  | ok (u : sifive_uart_t) (bytes : List Nat)
  | failed
  | aborted

/-- sifive_uart_t::load: fails when the address is at or beyond the
0x1000 window or the width exceeds 4; known registers answer with len
little-endian bytes of the register value (register offsets are modelled
from the spec, sifive_uart.h being absent); any other offset inside the
window aborts the simulator. -/
def sifive_uart_load (u : sifive_uart_t) (addr len : Nat) : UartRes :=
  if 0x1000 ≤ addr ∨ 4 < len then UartRes.failed
  else if addr = 0x00 then UartRes.ok u (leBytes 0 len)
  else if addr = 0x04 then
    let p := read_rxfifo u
    UartRes.ok p.2 (leBytes p.1 len)
  else if addr = 0x08 then UartRes.ok u (leBytes u.txctrl len)
  else if addr = 0x0c then UartRes.ok u (leBytes u.rxctrl len)
  else if addr = 0x10 then UartRes.ok u (leBytes u.ie len)
  else if addr = 0x14 then UartRes.ok u (leBytes (read_ip u) len)
  else if addr = 0x18 then UartRes.ok u (leBytes u.div_reg len)
  else UartRes.aborted

/-- Every queue num is a nonzero power of two. -/
def GoodNums (s : VIRTIODevice) : Prop := ∀ i : Fin 8, ∃ k, (s.queue i).num = 2 ^ k

/-- No device callback recorded in a notify log returned a negative
value. -/
def noPushback (log : List NotifyStep) : Prop :=
  ∀ h ret, NotifyStep.invoked h ret ∈ log → 0 ≤ ret

/-- Specification of one queue_notify run that started with
last_avail_idx = last0 and read avail.idx = avail: when the run finished,
(a) if no callback pushed back, last_avail_idx ends exactly at avail and
the log has one entry per walked head ((avail - last0) mod 2^16 of them);
(b) if a callback returned a negative value, it is the last log entry and
last_avail_idx stays at the head that callback rejected. -/
def NotifySpec (q : Fin 8) (avail last0 : Nat) (o : NotifyOut) : Prop :=
  o.finished = true →
    (noPushback o.log →
      (o.dev.queue q).last_avail_idx = avail ∧
      o.log.length = (avail + 65536 - last0) % 65536) ∧
    (∀ pre hd rt post, o.log = pre ++ NotifyStep.invoked hd rt :: post → rt < 0 →
      post = [] ∧ (o.dev.queue q).last_avail_idx = (last0 + pre.length) % 65536)

/-- A base block-device state as virtio_block_init leaves it (memset to
zero, device_id 2, vendor_id 0xffff, config_space_size 8, then
virtio_reset). -/
def blk0 : VIRTIODevice :=
  virtio_reset
    { int_status := 0, status := 0, device_features_sel := 0, device_features := 0
      device_id := 2, vendor_id := 0xffff, queue_sel := 0
      queue := fun _ =>
        { ready := 0, num := 0, last_avail_idx := 0
          desc_addr := 0, avail_addr := 0, used_addr := 0, manual_recv := false }
      irq_level := false, config_space := fun _ => 0, config_space_size := 8
      req_in_progress := false, req_type := 0, req_queue_idx := 0, req_desc_idx := 0
      req_write_size := 0, req_buf := fun _ => 0 }

/-- A device callback that accepts every head and changes nothing. -/
def recv0 : RecvFn := fun s mem _ _ _ _ => (0, s, mem)

/-- A device callback that accepts every head and marks guest byte 0x999,
to witness whether the notify loop invoked it. -/
def recvMark : RecvFn := fun s mem _ _ _ _ => (0, s, write8 mem 0x999 1)

/-- A block backend whose reads and writes succeed synchronously over an
all-zero image. -/
def bs0 : BlockBackend := ⟨fun _ _ => 0, fun _ => 0, fun _ _ => 0⟩

/-- All-zero guest memory. -/
def mem0 : Mem := fun _ => 0

/-- Device state for the consume-desc examples: queue 0 with num = 16 and
used ring at 0x300. -/
def sUsed : VIRTIODevice :=
  let qs1 : QueueState :=
    { ready := 0, num := 16, last_avail_idx := 0
      desc_addr := 0x100, avail_addr := 0x400, used_addr := 0x300, manual_recv := false }
  { blk0 with queue := Function.update blk0.queue 0 qs1 }

/-- Guest memory for the notify counterexample: avail.idx = 1, head 0,
descriptor 0 is write-flagged with NEXT to descriptor 1 which is
read-flagged, so get_desc_rw_size fails with -1. -/
def mem5c : Mem := fun a =>
  if a = 0x402 then 1 else if a = 0x10c then 3 else if a = 0x10e then 1 else 0

/-- Guest memory for the notify witness: avail.idx = 2, heads 0 and 1,
both descriptors all-zero (read-only, no NEXT). -/
def mem5w : Mem := fun a =>
  if a = 0x402 then 2 else if a = 0x406 then 1 else 0

/-- Guest memory for the block-request examples: descriptor 0 at 0x100
is read-only with no NEXT, len 16, pointing at 0x200; the 16 header
bytes at 0x200 are zero except the type byte, which this memory leaves 0
(request type IN). -/
def mem1w : Mem := fun a =>
  if a = 0x101 then 2 else if a = 0x108 then 16 else 0

/-- Same layout but the header type byte at 0x200 is 2: an unsupported
request type. -/
def mem1c : Mem := fun a =>
  if a = 0x101 then 2 else if a = 0x108 then 16 else if a = 0x200 then 2 else 0

/-- Same layout but the header type byte at 0x200 is 1: an OUT request. -/
def mem10 : Mem := fun a =>
  if a = 0x101 then 2 else if a = 0x108 then 16 else if a = 0x200 then 1 else 0

/-- Guest memory for the header-copy-failure counterexample: descriptor 0
is read-only with no NEXT but only 8 bytes long, so the 16-byte header
copy fails. -/
def mem1f : Mem := fun a =>
  if a = 0x101 then 2 else if a = 0x108 then 8 else 0

/-! Read-after-write lemmas for the byte memory. -/

theorem read8_write8_same (m : Mem) (a v : Nat) : read8 (write8 m a v) a = v % 256 := by
  show (if a = a then v % 256 else m a) % 256 = v % 256
  rw [if_pos rfl]
  omega

theorem read8_write8_ne (m : Mem) (a v x : Nat) (h : x ≠ a) :
    read8 (write8 m a v) x = read8 m x := by
  simp only [read8, write8, if_neg h]

theorem read8_write32_ne (m : Mem) (a v x : Nat)
    (h0 : x ≠ a) (h1 : x ≠ a + 1) (h2 : x ≠ a + 2) (h3 : x ≠ a + 3) :
    read8 (write32 m a v) x = read8 m x := by
  simp only [write32]
  rw [read8_write8_ne _ _ _ _ h3, read8_write8_ne _ _ _ _ h2,
    read8_write8_ne _ _ _ _ h1, read8_write8_ne _ _ _ _ h0]

theorem read16_write16_same (m : Mem) (a v : Nat) :
    read16 (write16 m a v) a = v % 65536 := by
  simp only [read16, write16]
  rw [read8_write8_ne _ _ _ _ (by omega), read8_write8_same, read8_write8_same]
  omega

theorem read16_write32_ne (m : Mem) (a v x : Nat) (h : x + 1 < a ∨ a + 3 < x) :
    read16 (write32 m a v) x = read16 m x := by
  simp only [read16]
  rw [read8_write32_ne _ _ _ _ (by omega) (by omega) (by omega) (by omega),
    read8_write32_ne _ _ _ _ (by omega) (by omega) (by omega) (by omega)]

theorem read32_write32_same (m : Mem) (a v : Nat) :
    read32 (write32 m a v) a = v % 4294967296 := by
  simp only [read32, read16, write32]
  rw [read8_write8_ne _ _ _ _ (by omega), read8_write8_ne _ _ _ _ (by omega),
    read8_write8_ne _ _ _ _ (by omega), read8_write8_same]
  rw [read8_write8_ne _ _ _ _ (by omega), read8_write8_ne _ _ _ _ (by omega),
    read8_write8_same]
  rw [read8_write8_ne _ _ _ _ (by omega), read8_write8_same]
  rw [read8_write8_same]
  omega

theorem read32_write32_ne (m : Mem) (a v x : Nat) (h : x + 3 < a ∨ a + 3 < x) :
    read32 (write32 m a v) x = read32 m x := by
  simp only [read32]
  rw [read16_write32_ne _ _ _ _ (by omega), read16_write32_ne _ _ _ _ (by omega)]

theorem read16_lt (m : Mem) (a : Nat) : read16 m a < 65536 := by
  simp only [read16, read8]
  omega

/-! Closed forms for virtio_consume_desc. -/

theorem virtio_consume_desc_dev (s : VIRTIODevice) (mem : Mem) (q : Fin 8) (h l : Nat) :
    (virtio_consume_desc s mem q h l).1 =
      { s with int_status := s.int_status ||| 1, irq_level := true } := rfl

theorem virtio_consume_desc_mem (s : VIRTIODevice) (mem : Mem) (q : Fin 8) (h l : Nat) :
    (virtio_consume_desc s mem q h l).2 =
      write32 (write32 (write16 mem ((s.queue q).used_addr + 2)
          (read16 mem ((s.queue q).used_addr + 2) + 1))
        ((s.queue q).used_addr + 4 +
          (read16 mem ((s.queue q).used_addr + 2) &&& ((s.queue q).num - 1)) * 8) h)
        ((s.queue q).used_addr + 4 +
          (read16 mem ((s.queue q).used_addr + 2) &&& ((s.queue q).num - 1)) * 8 + 4) l := rfl

theorem consume_used_idx (s : VIRTIODevice) (mem : Mem) (q : Fin 8) (h l : Nat) :
    read16 (virtio_consume_desc s mem q h l).2 ((s.queue q).used_addr + 2) =
      (read16 mem ((s.queue q).used_addr + 2) + 1) % 65536 := by
  rw [virtio_consume_desc_mem]
  rw [read16_write32_ne _ _ _ _ (by omega), read16_write32_ne _ _ _ _ (by omega),
    read16_write16_same]

theorem consume_slot_head (s : VIRTIODevice) (mem : Mem) (q : Fin 8) (h l : Nat) :
    read32 (virtio_consume_desc s mem q h l).2
      ((s.queue q).used_addr + 4 +
        (read16 mem ((s.queue q).used_addr + 2) &&& ((s.queue q).num - 1)) * 8) =
      h % 4294967296 := by
  rw [virtio_consume_desc_mem]
  rw [read32_write32_ne _ _ _ _ (by omega), read32_write32_same]

theorem consume_slot_len (s : VIRTIODevice) (mem : Mem) (q : Fin 8) (h l : Nat) :
    read32 (virtio_consume_desc s mem q h l).2
      ((s.queue q).used_addr + 4 +
        (read16 mem ((s.queue q).used_addr + 2) &&& ((s.queue q).num - 1)) * 8 + 4) =
      l % 4294967296 := by
  rw [virtio_consume_desc_mem, read32_write32_same]

theorem or_one_and_one (x : Nat) : (x ||| 1) &&& 1 = 1 := by
  rw [Nat.and_one_is_mod]
  simp

/-! Powers of two and the QUEUE_NUM acceptance test val & (val-1) == 0 && val > 0. -/

theorem pow2_land_pred (k : Nat) : 2 ^ k &&& (2 ^ k - 1) = 0 := by
  rw [Nat.and_pow_two_sub_one_eq_mod]
  exact Nat.mod_self _

theorem pow2_of_land_pred (n : Nat) (hn : 0 < n) (h : n &&& (n - 1) = 0) :
    ∃ k, n = 2 ^ k := by
  induction n using Nat.strong_induction_on with
  | _ n ih =>
    rcases Nat.even_or_odd n with he | ho
    · have h2 : n / 2 &&& (n / 2 - 1) = 0 := by
        have hd : (n &&& (n - 1)) / 2 = n / 2 &&& (n - 1) / 2 := Nat.and_div_two
        have hsub : (n - 1) / 2 = n / 2 - 1 := by
          obtain ⟨m, rfl⟩ := he
          omega
        rw [h] at hd
        rw [hsub] at hd
        omega
      have hpos : 0 < n / 2 := by
        obtain ⟨m, rfl⟩ := he
        omega
      have hlt : n / 2 < n := by omega
      obtain ⟨k, hk⟩ := ih (n / 2) hlt hpos h2
      refine ⟨k + 1, ?_⟩
      obtain ⟨m, rfl⟩ := he
      rw [pow_succ]
      omega
    · rcases ho with ⟨m, hm⟩
      have hd : (n &&& (n - 1)) / 2 = n / 2 &&& (n - 1) / 2 := Nat.and_div_two
      have hsub : (n - 1) / 2 = n / 2 := by omega
      rw [h, hsub, Nat.and_self] at hd
      have h0 : n / 2 = 0 := by omega
      exact ⟨0, by omega⟩

/-! Plumbing lemmas: parts of the model that leave queue state alone. -/

theorem virtio_config_write_queue (s : VIRTIODevice) (o v z : Nat) :
    (virtio_config_write s o v z).queue = s.queue := by
  rcases z with _ | _ | _ | z <;> simp only [virtio_config_write] <;> split <;> rfl

theorem bump_avail_num (s : VIRTIODevice) (q i : Fin 8) :
    ((bump_avail s q).queue i).num = (s.queue i).num := by
  simp only [bump_avail, Function.update]
  split
  · next heq => subst heq; rfl
  · rfl

theorem queue_notify_loop_num (recv : RecvFn) (cF : Nat) (q : Fin 8) (av : Nat)
    (hrecv : ∀ s m q1 d r w i, (((recv s m q1 d r w).2.1).queue i).num = (s.queue i).num) :
    ∀ fuel s mem i,
      (((queue_notify_loop recv cF q av s mem fuel).dev.queue i).num = (s.queue i).num) := by
  intro fuel
  induction fuel with
  | zero => intro s mem i; rfl
  | succ n ih =>
    intro s mem i
    simp only [queue_notify_loop]
    split
    · rfl
    · split
      · split
        · simp only
          exact hrecv s mem q _ _ _ i
        · simp only
          rw [ih]
          rw [bump_avail_num]
          exact hrecv s mem q _ _ _ i
      · simp only
        rw [ih, bump_avail_num]
      · rfl

theorem queue_notify_num (recv : RecvFn) (cF : Nat) (s : VIRTIODevice) (mem : Mem)
    (q i : Fin 8) (fuel : Nat)
    (hrecv : ∀ s m q1 d r w i, (((recv s m q1 d r w).2.1).queue i).num = (s.queue i).num) :
    ((queue_notify recv cF s mem q fuel).dev.queue i).num = (s.queue i).num := by
  simp only [queue_notify]
  split
  · rfl
  · exact queue_notify_loop_num recv cF q _ hrecv fuel s mem i

/-- Claim C4: immediately after virtio_consume_desc(q, head, len) returns,
the 16-bit counter at q.used + 2 equals old_idx + 1 (as a 16-bit
counter), the 8-byte slot at q.used + 4 + (old_idx mod q.num)*8 holds the
pair (head, len), int_status bit 0 is set, and the IRQ line is raised. -/
theorem c4_consume_desc_publication (s : VIRTIODevice) (mem : Mem) (q : Fin 8)
    (head len : Nat) (hnum : ∃ k, (s.queue q).num = 2 ^ k)
    (hhead : head < 4294967296) (hlen : len < 4294967296) :
    read16 (virtio_consume_desc s mem q head len).2 ((s.queue q).used_addr + 2) =
      (read16 mem ((s.queue q).used_addr + 2) + 1) % 65536 ∧
    read32 (virtio_consume_desc s mem q head len).2
      ((s.queue q).used_addr + 4 +
        (read16 mem ((s.queue q).used_addr + 2) % (s.queue q).num) * 8) = head ∧
    read32 (virtio_consume_desc s mem q head len).2
      ((s.queue q).used_addr + 4 +
        (read16 mem ((s.queue q).used_addr + 2) % (s.queue q).num) * 8 + 4) = len ∧
    (virtio_consume_desc s mem q head len).1.int_status &&& 1 = 1 ∧
    (virtio_consume_desc s mem q head len).1.irq_level = true := by
  obtain ⟨k, hk⟩ := hnum
  have hmask : read16 mem ((s.queue q).used_addr + 2) &&& ((s.queue q).num - 1) =
      read16 mem ((s.queue q).used_addr + 2) % (s.queue q).num := by
    rw [hk, Nat.and_pow_two_sub_one_eq_mod]
  refine ⟨consume_used_idx s mem q head len, ?_, ?_, ?_, ?_⟩
  · rw [← hmask, consume_slot_head, Nat.mod_eq_of_lt hhead]
  · rw [← hmask, consume_slot_len, Nat.mod_eq_of_lt hlen]
  · rw [virtio_consume_desc_dev]
    exact or_one_and_one s.int_status
  · rw [virtio_consume_desc_dev]

/-- Witness for C4 at a concrete state: queue 0 with num = 16 and used
ring at 0x300 over all-zero memory, publishing (5, 7). -/
theorem c4_witness :
    ((∃ k, (sUsed.queue 0).num = 2 ^ k) ∧ 5 < 4294967296 ∧ 7 < 4294967296) ∧
    (read16 (virtio_consume_desc sUsed mem0 0 5 7).2 ((sUsed.queue 0).used_addr + 2) =
      (read16 mem0 ((sUsed.queue 0).used_addr + 2) + 1) % 65536 ∧
    read32 (virtio_consume_desc sUsed mem0 0 5 7).2
      ((sUsed.queue 0).used_addr + 4 +
        (read16 mem0 ((sUsed.queue 0).used_addr + 2) % (sUsed.queue 0).num) * 8) = 5 ∧
    read32 (virtio_consume_desc sUsed mem0 0 5 7).2
      ((sUsed.queue 0).used_addr + 4 +
        (read16 mem0 ((sUsed.queue 0).used_addr + 2) % (sUsed.queue 0).num) * 8 + 4) = 7 ∧
    (virtio_consume_desc sUsed mem0 0 5 7).1.int_status &&& 1 = 1 ∧
    (virtio_consume_desc sUsed mem0 0 5 7).1.irq_level = true) :=
  ⟨⟨⟨4, rfl⟩, by omega, by omega⟩,
   c4_consume_desc_publication sUsed mem0 0 5 7 ⟨4, rfl⟩ (by omega) (by omega)⟩

/-- Counterexample for claim C2: with queue 0's ready bit 0, a
virtio_consume_desc publication is not discarded: the used-ring counter
at used + 2 is incremented in guest memory and the IRQ line rises. -/
theorem c2_counterexample :
    (sUsed.queue 0).ready = 0 ∧
    read16 (virtio_consume_desc sUsed mem0 0 5 7).2 0x302 = 1 ∧
    (virtio_consume_desc sUsed mem0 0 5 7).1.irq_level = true := by
  refine ⟨rfl, ?_, rfl⟩
  decide

/-- Claim C2 amended: neither virtio_consume_desc nor the queue_notify
path checks the queue's ready flag (the source marks the missing check
with an XXX comment); even when ready = 0 the publication still stores
to the used ring and raises the IRQ line. -/
theorem c2_amended_publish_ignores_ready (s : VIRTIODevice) (mem : Mem) (q : Fin 8)
    (head len : Nat) (_hready : (s.queue q).ready = 0) :
    read16 (virtio_consume_desc s mem q head len).2 ((s.queue q).used_addr + 2) =
      (read16 mem ((s.queue q).used_addr + 2) + 1) % 65536 ∧
    (virtio_consume_desc s mem q head len).1.irq_level = true :=
  ⟨consume_used_idx s mem q head len, by rw [virtio_consume_desc_dev]⟩

/-- Witness for the amended C2 at a concrete ready = 0 state. -/
theorem c2_amended_witness :
    (sUsed.queue 0).ready = 0 ∧
    (read16 (virtio_consume_desc sUsed mem0 0 9 4).2 ((sUsed.queue 0).used_addr + 2) =
      (read16 mem0 ((sUsed.queue 0).used_addr + 2) + 1) % 65536 ∧
    (virtio_consume_desc sUsed mem0 0 9 4).1.irq_level = true) :=
  ⟨rfl, c2_amended_publish_ignores_ready sUsed mem0 0 9 4 rfl⟩

/-- Counterexample for claim C3: in the event sequence issued by
virtio_consume_desc the very first store targets the used.idx counter at
used + 2, so no ring-entry store precedes the used.idx increment. -/
theorem c3_counterexample :
    virtio_consume_desc_events sUsed mem0 0 5 7 =
      [MemEvent.store16 0x302 1, MemEvent.store32 0x304 5,
       MemEvent.store32 0x308 7, MemEvent.irqSet true] ∧
    ¬ ∃ i j : Nat, i < j ∧
        (virtio_consume_desc_events sUsed mem0 0 5 7).get? i = some (MemEvent.store32 0x304 5) ∧
        (virtio_consume_desc_events sUsed mem0 0 5 7).get? j = some (MemEvent.store16 0x302 1) := by
  have he : virtio_consume_desc_events sUsed mem0 0 5 7 =
      [MemEvent.store16 0x302 1, MemEvent.store32 0x304 5,
       MemEvent.store32 0x308 7, MemEvent.irqSet true] := by decide
  refine ⟨he, ?_⟩
  rintro ⟨i, j, hij, hi, hj⟩
  rw [he] at hi hj
  rcases j with _ | _ | _ | _ | j
  · omega
  · simp [List.get?] at hj
  · simp [List.get?] at hj
  · simp [List.get?] at hj
  · simp [List.get?] at hj

/-- Claim C3 amended: in every virtio_consume_desc publication the store
that increments used.idx comes first, then the two stores of the
(head, len) ring entry, then the IRQ raise; applying the events in that
order to guest memory is exactly the memory transition of
virtio_consume_desc. -/
theorem c3_amended_store_order (s : VIRTIODevice) (mem : Mem) (q : Fin 8) (head len : Nat) :
    virtio_consume_desc_events s mem q head len =
      [MemEvent.store16 ((s.queue q).used_addr + 2)
         (read16 mem ((s.queue q).used_addr + 2) + 1),
       MemEvent.store32 ((s.queue q).used_addr + 4 +
         (read16 mem ((s.queue q).used_addr + 2) &&& ((s.queue q).num - 1)) * 8) head,
       MemEvent.store32 ((s.queue q).used_addr + 4 +
         (read16 mem ((s.queue q).used_addr + 2) &&& ((s.queue q).num - 1)) * 8 + 4) len,
       MemEvent.irqSet true] ∧
    applyEvents mem (virtio_consume_desc_events s mem q head len) =
      (virtio_consume_desc s mem q head len).2 :=
  ⟨rfl, rfl⟩

/-- Claim C7: a 32-bit MMIO write of 0 to STATUS (offset 0x070) resets
the device: every queue's ready bit and last_avail_idx are 0, int_status
is 0, status is 0, and the IRQ line is low. -/
theorem c7_status_zero_is_full_reset (recv : RecvFn) (cF nF : Nat)
    (s : VIRTIODevice) (mem : Mem) :
    (∀ i : Fin 8,
        ((virtio_mmio_write recv cF nF s mem 0x70 0 2).1.queue i).ready = 0 ∧
        ((virtio_mmio_write recv cF nF s mem 0x70 0 2).1.queue i).last_avail_idx = 0) ∧
    (virtio_mmio_write recv cF nF s mem 0x70 0 2).1.int_status = 0 ∧
    (virtio_mmio_write recv cF nF s mem 0x70 0 2).1.status = 0 ∧
    (virtio_mmio_write recv cF nF s mem 0x70 0 2).1.irq_level = false :=
  ⟨fun _ => ⟨rfl, rfl⟩, rfl, rfl, rfl⟩

/-- Claim C9: virtio_reset (run both at device initialisation and on a
STATUS = 0 write) leaves every queue with num = MAX_QUEUE_NUM = 16 while
ready, last_avail_idx and the three ring base addresses are zeroed, so
the queue state after reset is not fully zeroed. -/
theorem c9_reset_num_is_sixteen (s : VIRTIODevice) (i : Fin 8) :
    ((virtio_reset s).queue i).num = 16 ∧
    ((virtio_reset s).queue i).ready = 0 ∧
    ((virtio_reset s).queue i).last_avail_idx = 0 ∧
    ((virtio_reset s).queue i).desc_addr = 0 ∧
    ((virtio_reset s).queue i).avail_addr = 0 ∧
    ((virtio_reset s).queue i).used_addr = 0 ∧
    (16 : Nat) ≠ 0 :=
  ⟨rfl, rfl, rfl, rfl, rfl, rfl, by omega⟩

theorem updSelQ_num (s : VIRTIODevice) (g : QueueState → QueueState) (i : Fin 8)
    (hgn : ∀ qs, (g qs).num = qs.num) :
    ((updSelQ s g).queue i).num = (s.queue i).num := by
  simp only [updSelQ, Function.update]
  split
  · next heq => subst heq; rw [hgn]
  · rfl

/-- A single MMIO write keeps every queue num a nonzero power of two,
provided the device callback reached through QUEUE_NOTIFY preserves
queue nums (as the block device's does). -/
theorem mmio_write_goodnums (recv : RecvFn) (cF nF : Nat)
    (hrecv : ∀ s m q d r w i, (((recv s m q d r w).2.1).queue i).num = (s.queue i).num)
    (s : VIRTIODevice) (mem : Mem) (off val sz : Nat) (hg : GoodNums s) :
    GoodNums (virtio_mmio_write recv cF nF s mem off val sz).1 := by
  intro i
  have hupd : ∀ (g : QueueState → QueueState), (∀ qs, (g qs).num = qs.num) →
      (∃ k, ((s.queue i).num = 2 ^ k)) → ∃ k, (((updSelQ s g).queue i).num = 2 ^ k) := by
    intro g hgn hk
    rw [updSelQ_num _ _ _ hgn]
    exact hk
  delta virtio_mmio_write virtio_mmio_write_core
  by_cases h0 : 0x100 ≤ off
  · rw [if_pos h0]
    simpa [virtio_config_write_queue] using hg i
  rw [if_neg h0]
  by_cases hsz : sz = 2
  case neg => rw [if_neg hsz]; exact hg i
  rw [if_pos hsz]
  by_cases h1 : off = 0x014
  · rw [if_pos h1]; exact hg i
  rw [if_neg h1]
  by_cases h2 : off = 0x030
  · rw [if_pos h2]
    by_cases hv : val % 4294967296 < 8
    · rw [dif_pos hv]; exact hg i
    · rw [dif_neg hv]; exact hg i
  rw [if_neg h2]
  by_cases h3 : off = 0x038
  · rw [if_pos h3]
    by_cases hacc : val % 4294967296 &&& (val % 4294967296 - 1) = 0 ∧ 0 < val % 4294967296
    · rw [if_pos hacc]
      by_cases hi : i = s.queue_sel
      · subst hi
        obtain ⟨k, hk⟩ := pow2_of_land_pred (val % 4294967296) hacc.2 hacc.1
        refine ⟨k, ?_⟩
        simp only [updSelQ, Function.update_same]
        exact hk
      · simp only [updSelQ, Function.update_noteq hi]
        exact hg i
    · rw [if_neg hacc]; exact hg i
  rw [if_neg h3]
  by_cases h4 : off = 0x080
  · rw [if_pos h4]; exact hupd (fun qs => { qs with desc_addr := qs.desc_addr / 4294967296 * 4294967296 + val % 4294967296 }) (fun _ => rfl) (hg i)
  rw [if_neg h4]
  by_cases h5 : off = 0x084
  · rw [if_pos h5]; exact hupd (fun qs => { qs with desc_addr := qs.desc_addr % 4294967296 + val % 4294967296 * 4294967296 }) (fun _ => rfl) (hg i)
  rw [if_neg h5]
  by_cases h6 : off = 0x090
  · rw [if_pos h6]; exact hupd (fun qs => { qs with avail_addr := qs.avail_addr / 4294967296 * 4294967296 + val % 4294967296 }) (fun _ => rfl) (hg i)
  rw [if_neg h6]
  by_cases h7 : off = 0x094
  · rw [if_pos h7]; exact hupd (fun qs => { qs with avail_addr := qs.avail_addr % 4294967296 + val % 4294967296 * 4294967296 }) (fun _ => rfl) (hg i)
  rw [if_neg h7]
  by_cases h8 : off = 0x0a0
  · rw [if_pos h8]; exact hupd (fun qs => { qs with used_addr := qs.used_addr / 4294967296 * 4294967296 + val % 4294967296 }) (fun _ => rfl) (hg i)
  rw [if_neg h8]
  by_cases h9 : off = 0x0a4
  · rw [if_pos h9]; exact hupd (fun qs => { qs with used_addr := qs.used_addr % 4294967296 + val % 4294967296 * 4294967296 }) (fun _ => rfl) (hg i)
  rw [if_neg h9]
  by_cases h10 : off = 0x070
  · rw [if_pos h10]
    by_cases hz : val % 4294967296 = 0
    · rw [if_pos hz]; exact ⟨4, rfl⟩
    · rw [if_neg hz]; exact hg i
  rw [if_neg h10]
  by_cases h11 : off = 0x044
  · rw [if_pos h11]; exact hupd (fun qs => { qs with ready := val % 4294967296 &&& 1 }) (fun _ => rfl) (hg i)
  rw [if_neg h11]
  by_cases h12 : off = 0x050
  · rw [if_pos h12]
    by_cases hv : val % 4294967296 < 8
    · rw [dif_pos hv]
      simp only
      rw [queue_notify_num _ _ _ _ _ _ _ hrecv]
      exact hg i
    · rw [dif_neg hv]; exact hg i
  rw [if_neg h12]
  by_cases h13 : off = 0x064
  · rw [if_pos h13]; exact hg i
  rw [if_neg h13]
  exact hg i

/-- Counterexample for claim C6: from the reset state a 32-bit write of
32 to QUEUE_NUM (offset 0x038) is accepted even though 32 exceeds
MAX_QUEUE_NUM = 16. -/
theorem c6_counterexample :
    ((virtio_mmio_write recv0 1 1 blk0 mem0 0x38 32 2).1.queue 0).num = 32 ∧
    ¬ (32 : Nat) ≤ 16 :=
  ⟨by decide, by omega⟩

/-- Claim C6 amended: after any sequence of MMIO writes every queue's num
stays a nonzero power of two (writes of zero or of a non-power-of-two to
QUEUE_NUM are ignored), but any power of two up to 2^31 is accepted —
the source never compares the value against MAX_QUEUE_NUM. -/
theorem c6_amended_num_stays_power_of_two (recv : RecvFn) (cF nF : Nat)
    (hrecv : ∀ s m q d r w i, (((recv s m q d r w).2.1).queue i).num = (s.queue i).num) :
    (∀ s mem ws, GoodNums s → GoodNums (virtio_mmio_writes recv cF nF s mem ws).1) ∧
    (∀ s mem val, ¬ (∃ k : Nat, val = 2 ^ k) → val < 4294967296 →
      ∀ i, ((virtio_mmio_write recv cF nF s mem 0x38 val 2).1.queue i).num =
        (s.queue i).num) := by
  constructor
  · intro s mem ws
    induction ws generalizing s mem with
    | nil => exact fun hg => hg
    | cons w ws ih =>
      intro hg
      obtain ⟨off, val, sz⟩ := w
      simp only [virtio_mmio_writes]
      exact ih _ _ (mmio_write_goodnums recv cF nF hrecv s mem off val sz hg)
  · intro s mem val hnp hlt i
    delta virtio_mmio_write virtio_mmio_write_core
    rw [Nat.mod_eq_of_lt hlt]
    rw [if_neg (by omega : ¬ (0x100 : Nat) ≤ 0x38), if_pos rfl,
      if_neg (by omega : ¬ (0x38 : Nat) = 0x014), if_neg (by omega : ¬ (0x38 : Nat) = 0x030),
      if_pos rfl]
    rw [if_neg]
    intro hacc
    exact hnp (pow2_of_land_pred val hacc.2 hacc.1)

/-- Witness for the amended C6: from the reset state, a rejected
QUEUE_NUM write of 12 followed by a QUEUE_READY write keeps all nums
powers of two. -/
theorem c6_amended_witness :
    (∀ s m q d r w i, (((recv0 s m q d r w).2.1).queue i).num = (s.queue i).num) ∧
    GoodNums (virtio_mmio_writes recv0 1 1 blk0 mem0 [(0x38, 12, 2), (0x44, 1, 2)]).1 :=
  ⟨fun _ _ _ _ _ _ _ => rfl,
   (c6_amended_num_stays_power_of_two recv0 1 1 (fun _ _ _ _ _ _ _ => rfl)).1
     blk0 mem0 _ (fun _ => ⟨4, rfl⟩)⟩

theorem bump_avail_last (s : VIRTIODevice) (q : Fin 8) :
    ((bump_avail s q).queue q).last_avail_idx = ((s.queue q).last_avail_idx + 1) % 65536 := by
  simp [bump_avail, Function.update_same]

theorem noPushback_cons_inv {hd : Nat} {rt : Int} {l : List NotifyStep}
    (h : noPushback (NotifyStep.invoked hd rt :: l)) : 0 ≤ rt ∧ noPushback l :=
  ⟨h hd rt (List.mem_cons_self _ _), fun h' r' hm => h h' r' (List.mem_cons_of_mem _ hm)⟩

theorem noPushback_cons_skip {hd : Nat} {l : List NotifyStep}
    (h : noPushback (NotifyStep.skipped hd :: l)) : noPushback l :=
  fun h' r' hm => h h' r' (List.mem_cons_of_mem _ hm)

/-- The notify while-loop satisfies NotifySpec for any device callback
that leaves the queue configuration array alone (the block device's
callback does). -/
theorem queue_notify_loop_spec (recv : RecvFn) (cF : Nat) (q : Fin 8) (avail : Nat)
    (hq : ∀ s1 m1 q1 d r w, ((recv s1 m1 q1 d r w).2.1).queue = s1.queue)
    (havail : avail < 65536) :
    ∀ fuel s mem, (s.queue q).last_avail_idx < 65536 →
      NotifySpec q avail ((s.queue q).last_avail_idx)
        (queue_notify_loop recv cF q avail s mem fuel) := by
  intro fuel
  induction fuel with
  | zero =>
    intro s mem _ hfin
    exact absurd hfin (by simp [queue_notify_loop])
  | succ n ih =>
    intro s mem hlast
    simp only [queue_notify_loop]
    by_cases hl : (s.queue q).last_avail_idx = avail
    · rw [if_pos hl]
      intro _
      constructor
      · intro _
        refine ⟨hl, ?_⟩
        simp only [List.length_nil]
        omega
      · intro pre hd rt post hlog _
        exact absurd hlog (by cases pre <;> simp)
    · rw [if_neg hl]
      split
      · next r w _ =>
        split
        · next hneg =>
          intro _
          constructor
          · intro hnp
            exact absurd (noPushback_cons_inv hnp).1 (by omega)
          · intro pre hd rt post hlog hrt
            rcases pre with _ | ⟨p, pre⟩
            · simp only [List.nil_append, List.cons.injEq] at hlog
              refine ⟨hlog.2.symm, ?_⟩
              rw [hq]
              simp only [List.length_nil]
              omega
            · simp at hlog
        · next hneg =>
          have hb : ((bump_avail ((recv s mem q
              (read16 mem ((s.queue q).avail_addr + 4 +
                ((s.queue q).last_avail_idx &&& ((s.queue q).num - 1)) * 2)) r w).2.1) q).queue
                  q).last_avail_idx =
              ((s.queue q).last_avail_idx + 1) % 65536 := by
            rw [bump_avail_last, hq]
          have IH := ih (bump_avail ((recv s mem q
              (read16 mem ((s.queue q).avail_addr + 4 +
                ((s.queue q).last_avail_idx &&& ((s.queue q).num - 1)) * 2)) r w).2.1) q)
            ((recv s mem q (read16 mem ((s.queue q).avail_addr + 4 +
              ((s.queue q).last_avail_idx &&& ((s.queue q).num - 1)) * 2)) r w).2.2)
            (by rw [hb]; omega)
          rw [hb] at IH
          intro hfin
          obtain ⟨IH1, IH2⟩ := IH hfin
          constructor
          · intro hnp
            obtain ⟨_, hnp'⟩ := noPushback_cons_inv hnp
            obtain ⟨ha, hlen⟩ := IH1 hnp'
            refine ⟨ha, ?_⟩
            simp only [List.length_cons, hlen]
            omega
          · intro pre hd rt post hlog hrt
            rcases pre with _ | ⟨p, pre⟩
            · simp only [List.nil_append, List.cons.injEq] at hlog
              have : rt = (recv s mem q (read16 mem ((s.queue q).avail_addr + 4 +
                  ((s.queue q).last_avail_idx &&& ((s.queue q).num - 1)) * 2)) r w).1 :=
                (NotifyStep.invoked.injEq _ _ _ _).mp hlog.1 |>.2.symm
              omega
            · simp only [List.cons_append, List.cons.injEq] at hlog
              obtain ⟨hpost, hl2⟩ := IH2 pre hd rt post hlog.2 hrt
              refine ⟨hpost, ?_⟩
              rw [hl2]
              simp only [List.length_cons]
              omega
      · next _ =>
        have IH := ih (bump_avail s q) mem (by rw [bump_avail_last]; omega)
        rw [bump_avail_last] at IH
        intro hfin
        obtain ⟨IH1, IH2⟩ := IH hfin
        constructor
        · intro hnp
          obtain ⟨ha, hlen⟩ := IH1 (noPushback_cons_skip hnp)
          refine ⟨ha, ?_⟩
          simp only [List.length_cons, hlen]
          omega
        · intro pre hd rt post hlog hrt
          rcases pre with _ | ⟨p, pre⟩
          · simp only [List.nil_append, List.cons.injEq] at hlog
            exact absurd hlog.1 (by simp)
          · simp only [List.cons_append, List.cons.injEq] at hlog
            obtain ⟨hpost, hl2⟩ := IH2 pre hd rt post hlog.2 hrt
            refine ⟨hpost, ?_⟩
            rw [hl2]
            simp only [List.length_cons]
            omega
      · next _ =>
        intro hfin
        exact absurd hfin (by simp)

/-- Counterexample for claim C5: one available head whose descriptor
chain makes get_desc_rw_size fail (-1): queue_notify walks the head and
advances last_avail_idx past it to avail.idx, yet the device callback is
never invoked — the log records a skip and the callback's memory marker
at 0x999 stays 0. -/
theorem c5_counterexample :
    (queue_notify recvMark 3 sUsed mem5c 0 5).log = [NotifyStep.skipped 0] ∧
    read8 (queue_notify recvMark 3 sUsed mem5c 0 5).mem 0x999 = 0 ∧
    ((queue_notify recvMark 3 sUsed mem5c 0 5).dev.queue 0).last_avail_idx = 1 ∧
    read16 mem5c ((sUsed.queue 0).avail_addr + 2) = 1 ∧
    (queue_notify recvMark 3 sUsed mem5c 0 5).finished = true := by
  refine ⟨by decide, by decide, by decide, by decide, by decide⟩

/-- Claim C5 amended: queue_notify walks head indices from
last_avail_idx to the avail.idx read at entry, modulo 2^16.  A head whose
get_desc_rw_size fails is skipped — the callback is not invoked — but
last_avail_idx still advances past it; for every other head the callback
is invoked once.  If no callback returns a value below 0 the loop ends
with last_avail_idx = avail.idx after exactly (avail.idx − last_avail_idx)
mod 2^16 heads; a callback return below 0 stops the loop without
advancing past that head.  Stated for callbacks that leave the queue
configuration alone, as the block device's does. -/
theorem c5_amended_notify_walk (recv : RecvFn) (cF : Nat) (s : VIRTIODevice) (mem : Mem)
    (q : Fin 8) (fuel : Nat)
    (hq : ∀ s1 m1 q1 d r w, ((recv s1 m1 q1 d r w).2.1).queue = s1.queue)
    (hman : (s.queue q).manual_recv = false)
    (hlast : (s.queue q).last_avail_idx < 65536) :
    NotifySpec q (read16 mem ((s.queue q).avail_addr + 2)) ((s.queue q).last_avail_idx)
      (queue_notify recv cF s mem q fuel) := by
  simp only [queue_notify, hman, Bool.false_eq_true, if_false]
  exact queue_notify_loop_spec recv cF q _ hq (read16_lt _ _) fuel s mem hlast

/-- Witness for the amended C5: queue 0 with two available heads over
well-formed all-read chains; the spec instance is inhabited and, fully
evaluated, the run invokes the callback twice and ends at avail.idx = 2. -/
theorem c5_amended_witness :
    ((∀ s1 m1 q1 d r w, ((recv0 s1 m1 q1 d r w).2.1).queue = s1.queue) ∧
     (sUsed.queue 0).manual_recv = false ∧
     (sUsed.queue 0).last_avail_idx < 65536) ∧
    NotifySpec 0 (read16 mem5w ((sUsed.queue 0).avail_addr + 2))
      ((sUsed.queue 0).last_avail_idx) (queue_notify recv0 3 sUsed mem5w 0 5) ∧
    (queue_notify recv0 3 sUsed mem5w 0 5).log =
      [NotifyStep.invoked 0 0, NotifyStep.invoked 1 0] ∧
    ((queue_notify recv0 3 sUsed mem5w 0 5).dev.queue 0).last_avail_idx = 2 :=
  ⟨⟨fun _ _ _ _ _ _ => rfl, rfl, by decide⟩,
   c5_amended_notify_walk recv0 3 sUsed mem5w 0 5 (fun _ _ _ _ _ _ => rfl) rfl (by decide),
   by decide, by decide⟩

theorem bytesToNat_readBytes16_take4 (m : Mem) (a : Nat) :
    bytesToNat ((readBytes m a 16).take 4) = read32 m a := by
  have hr : (readBytes m a 16).take 4 =
      [read8 m (a + 0), read8 m (a + 1), read8 m (a + 2), read8 m (a + 3)] := by
    simp only [readBytes]
    rw [show List.range 16 = List.range 4 ++ [4, 5, 6, 7, 8, 9, 10, 11, 12, 13, 14, 15] from rfl]
    rw [List.map_append, List.take_append_of_le_length (by simp)]
    rw [List.take_of_length_le (by simp)]
    rfl
  rw [hr]
  have h3 : a + 2 + 1 = a + 3 := by omega
  simp only [bytesToNat, read32, read16, read8, Nat.add_zero, h3]
  omega

/-- With a device-readable head descriptor at least 16 bytes long, the
16-byte header copy succeeds and yields the bytes at the descriptor's
guest address. -/
theorem memcpy_from_queue_header (m : Mem) (da di fuel : Nat)
    (h2 : (get_desc m da di).flags &&& 2 = 0) (hlen : 16 ≤ (get_desc m da di).len) :
    memcpy_from_queue m da di 0 16 (fuel + 1) =
      CpyRes.ok (readBytes m ((get_desc m da di).addr) 16) := by
  unfold memcpy_from_queue
  rw [if_neg (by omega)]
  have hseek : cpy_seek m da 0 (get_desc m da di) di 0 (fuel + 1) =
      SeekRes.found (get_desc m da di) di 0 := by
    simp only [cpy_seek]
    rw [if_neg (by rw [h2]; simp), if_pos (by omega)]
  rw [hseek]
  simp only [cpy_read_loop]
  rw [if_pos (by omega)]
  have hmin : min 16 ((get_desc m da di).len - 0) = 16 := by omega
  rw [hmin]
  simp

/-- virtio_block_req_end for an IN request with write_size = 0: the
queue copy moves no bytes and the used entry (desc_idx, 0) is published. -/
theorem req_end_in_zero (s : VIRTIODevice) (mem : Mem) (rv : Int) (fuel : Nat)
    (htype : s.req_type = 0) (hws : s.req_write_size = 0) :
    virtio_block_req_end s mem rv fuel =
      ReqEndRes.done (virtio_consume_desc s mem s.req_queue_idx s.req_desc_idx 0).1
        (virtio_consume_desc s mem s.req_queue_idx s.req_desc_idx 0).2 := by
  unfold virtio_block_req_end
  rw [htype]
  simp only [hws, List.range_zero, List.map_nil]
  rw [show memcpy_to_queue mem (s.queue s.req_queue_idx).desc_addr s.req_desc_idx 0 [] fuel =
      (mem, CpyFlag.okF) from by simp [memcpy_to_queue]]
  simp

/-- Counterexample for claim C1: a block request that fails with an
unsupported request type (type byte 2) returns 0 from
virtio_block_recv_request with guest memory, int_status and the IRQ line
untouched — no used-ring entry is published for the head. -/
theorem c1_counterexample :
    virtio_block_recv_request bs0 sUsed mem1c 0 0 16 0 5 =
      BlkRes.ret 0 { sUsed with req_type := 2, req_queue_idx := 0, req_desc_idx := 0 } mem1c ∧
    read16 mem1c ((sUsed.queue 0).used_addr + 2) = 0 ∧
    sUsed.int_status = 0 ∧ sUsed.irq_level = false :=
  ⟨rfl, by decide, rfl, rfl⟩

/-- Claim C1 amended: a failing block request does not in general publish
a used-ring entry.  (a) When the header copy fails, recv_request returns
0 with the device and memory unchanged.  (b) When the request type is
neither IN (0) nor OUT (1), recv_request returns 0 having only recorded
the request fields; memory is unchanged.  (c) In the S6 scenario — a
chain whose only consulted descriptor is device-readable with len ≥ 16,
request type IN, write_size 0, over the synchronous in-tree backend —
requests do complete with a zero-length used entry (head, 0), int_status
bit 0 set and the IRQ raised. -/
theorem c1_amended_failure_paths :
    (∀ (bs : BlockBackend) (s : VIRTIODevice) (mem : Mem) (qi : Fin 8)
        (di rs ws fuel : Nat) (b : List Nat),
      s.req_in_progress = false →
      memcpy_from_queue mem (s.queue qi).desc_addr di 0 16 fuel = CpyRes.errv b →
      virtio_block_recv_request bs s mem qi di rs ws fuel = BlkRes.ret 0 s mem) ∧
    (∀ (bs : BlockBackend) (s : VIRTIODevice) (mem : Mem) (qi : Fin 8)
        (di rs ws fuel : Nat) (hdr : List Nat),
      s.req_in_progress = false →
      memcpy_from_queue mem (s.queue qi).desc_addr di 0 16 fuel = CpyRes.ok hdr →
      2 ≤ bytesToNat (hdr.take 4) →
      virtio_block_recv_request bs s mem qi di rs ws fuel =
        BlkRes.ret 0
          { s with req_type := bytesToNat (hdr.take 4), req_queue_idx := qi, req_desc_idx := di }
          mem) ∧
    (∀ (bs : BlockBackend) (s : VIRTIODevice) (mem : Mem) (qi : Fin 8) (di rs fuel : Nat),
      s.req_in_progress = false →
      (get_desc mem (s.queue qi).desc_addr di).flags &&& 2 = 0 →
      16 ≤ (get_desc mem (s.queue qi).desc_addr di).len →
      read32 mem ((get_desc mem (s.queue qi).desc_addr di).addr) = 0 →
      (∀ a b, bs.read_ret a b ≤ 0) →
      ∃ s3 mem3,
        virtio_block_recv_request bs s mem qi di rs 0 (fuel + 1) = BlkRes.ret 0 s3 mem3 ∧
        read16 mem3 ((s.queue qi).used_addr + 2) =
          (read16 mem ((s.queue qi).used_addr + 2) + 1) % 65536 ∧
        read32 mem3 ((s.queue qi).used_addr + 4 +
          (read16 mem ((s.queue qi).used_addr + 2) &&& ((s.queue qi).num - 1)) * 8) =
          di % 4294967296 ∧
        read32 mem3 ((s.queue qi).used_addr + 4 +
          (read16 mem ((s.queue qi).used_addr + 2) &&& ((s.queue qi).num - 1)) * 8 + 4) = 0 ∧
        s3.int_status &&& 1 = 1 ∧ s3.irq_level = true) := by
  refine ⟨?_, ?_, ?_⟩
  · intro bs s mem qi di rs ws fuel b hprog hcpy
    unfold virtio_block_recv_request
    rw [if_neg (by rw [hprog]; simp), hcpy]
  · intro bs s mem qi di rs ws fuel hdr hprog hcpy hty
    unfold virtio_block_recv_request
    rw [if_neg (by rw [hprog]; simp), hcpy]
    simp only []
    obtain ⟨k, hk⟩ : ∃ k, bytesToNat (hdr.take 4) = k + 2 :=
      ⟨bytesToNat (hdr.take 4) - 2, by omega⟩
    rw [hk]
    rfl
  · intro bs s mem qi di rs fuel hprog hflags hlen htype hsync
    unfold virtio_block_recv_request
    rw [if_neg (by rw [hprog]; simp)]
    rw [memcpy_from_queue_header mem (s.queue qi).desc_addr di fuel hflags hlen]
    simp only []
    rw [bytesToNat_readBytes16_take4, htype]
    simp only []
    split_ifs with hrv
    · refine absurd hrv ?_
      have h9 := hsync (bytesToNat (List.take 8 (List.drop 8
        (readBytes mem ((get_desc mem (s.queue qi).desc_addr di).addr) 16)))) ((0 - 1) / 512)
      omega
    · rw [req_end_in_zero _ _ _ _ rfl rfl]
      refine ⟨_, _, rfl, ?_, ?_, ?_, ?_, ?_⟩
      · exact consume_used_idx _ mem qi di 0
      · exact consume_slot_head _ mem qi di 0
      · exact consume_slot_len _ mem qi di 0
      · exact or_one_and_one _
      · rfl

/-- Witness for the amended C1 at concrete states: a header-copy failure
(8-byte descriptor) returns 0 unchanged, and the S6 scenario (read-only
16-byte descriptor, type IN, write_size 0) publishes the zero-length
used entry. -/
theorem c1_amended_witness :
    (sUsed.req_in_progress = false ∧
     memcpy_from_queue mem1f (sUsed.queue 0).desc_addr 0 0 16 5 =
       CpyRes.errv [0, 0, 0, 0, 0, 0, 0, 0] ∧
     (get_desc mem1w (sUsed.queue 0).desc_addr 0).flags &&& 2 = 0 ∧
     16 ≤ (get_desc mem1w (sUsed.queue 0).desc_addr 0).len ∧
     read32 mem1w ((get_desc mem1w (sUsed.queue 0).desc_addr 0).addr) = 0) ∧
    virtio_block_recv_request bs0 sUsed mem1f 0 0 16 0 5 = BlkRes.ret 0 sUsed mem1f ∧
    (∃ s3 mem3,
      virtio_block_recv_request bs0 sUsed mem1w 0 0 16 0 (4 + 1) = BlkRes.ret 0 s3 mem3 ∧
      read16 mem3 ((sUsed.queue 0).used_addr + 2) =
        (read16 mem1w ((sUsed.queue 0).used_addr + 2) + 1) % 65536 ∧
      read32 mem3 ((sUsed.queue 0).used_addr + 4 +
        (read16 mem1w ((sUsed.queue 0).used_addr + 2) &&& ((sUsed.queue 0).num - 1)) * 8) =
        0 % 4294967296 ∧
      read32 mem3 ((sUsed.queue 0).used_addr + 4 +
        (read16 mem1w ((sUsed.queue 0).used_addr + 2) &&& ((sUsed.queue 0).num - 1)) * 8 + 4) =
        0 ∧
      s3.int_status &&& 1 = 1 ∧ s3.irq_level = true) :=
  ⟨⟨rfl, by decide, by decide, by decide, by decide⟩,
   c1_amended_failure_paths.1 bs0 sUsed mem1f 0 0 16 0 5 [0, 0, 0, 0, 0, 0, 0, 0]
     rfl (by decide),
   c1_amended_failure_paths.2.2 bs0 sUsed mem1w 0 0 16 4 rfl (by decide) (by decide)
     (by decide) (fun _ _ => Int.le_refl 0)⟩

/-- Claim C10: an OUT (type 1) block request whose descriptor chain
provided no device-writable byte (write_size = 0) trips the
assert(write_size >= 1) and the simulator aborts; the assertion holds
only under the precondition that the driver supplies at least one
writable status byte. -/
theorem c10_out_without_writable_asserts (bs : BlockBackend) (s : VIRTIODevice)
    (mem : Mem) (qi : Fin 8) (di rs fuel : Nat) (hdr : List Nat)
    (hprog : s.req_in_progress = false)
    (hh : memcpy_from_queue mem (s.queue qi).desc_addr di 0 16 fuel = CpyRes.ok hdr)
    (hty : bytesToNat (hdr.take 4) = 1) :
    virtio_block_recv_request bs s mem qi di rs 0 fuel = BlkRes.assertFail := by
  unfold virtio_block_recv_request
  rw [if_neg (by rw [hprog]; simp), hh]
  simp only []
  rw [hty]
  rfl

/-- Witness for C10 at a concrete state: a single read-only 16-byte
descriptor whose header has type byte 1 and no writable descriptor. -/
theorem c10_witness :
    (sUsed.req_in_progress = false ∧
     memcpy_from_queue mem10 (sUsed.queue 0).desc_addr 0 0 16 5 =
       CpyRes.ok [1, 0, 0, 0, 0, 0, 0, 0, 0, 0, 0, 0, 0, 0, 0, 0] ∧
     bytesToNat ([1, 0, 0, 0, 0, 0, 0, 0, 0, 0, 0, 0, 0, 0, 0, 0].take 4) = 1) ∧
    virtio_block_recv_request bs0 sUsed mem10 0 0 16 0 5 = BlkRes.assertFail :=
  ⟨⟨rfl, by decide, by decide⟩,
   c10_out_without_writable_asserts bs0 sUsed mem10 0 0 16 5
     [1, 0, 0, 0, 0, 0, 0, 0, 0, 0, 0, 0, 0, 0, 0, 0] rfl (by decide) (by decide)⟩

/-- Counterexample for claim C8: a virtioblk load of width 3 at address 0
(inside the device window, width not above 8) returns failure, although
the claim says failure happens exactly when the width exceeds 8 or the
address is outside the window. -/
theorem c8_counterexample :
    virtioblk_load blk0 0 3 = none ∧ (3 : Nat) ≤ 8 :=
  ⟨rfl, by omega⟩

/-- Claim C8 amended: virtioblk_t::load fails exactly when the width is
not one of 1, 2, 4, 8 (the address is never checked); widths 1 and 2
succeed with zero-filled bytes.  sifive_uart_t::load fails exactly when
the address is at or beyond 0x1000 or the width exceeds 4 (an unmapped
offset inside the window aborts instead of failing). -/
theorem c8_amended_load_contract :
    (∀ (s : VIRTIODevice) (addr len : Nat),
      virtioblk_load s addr len = none ↔ ¬ (len = 1 ∨ len = 2 ∨ len = 4 ∨ len = 8)) ∧
    (∀ (s : VIRTIODevice) (addr : Nat),
      virtioblk_load s addr 1 = some [0] ∧ virtioblk_load s addr 2 = some [0, 0]) ∧
    (∀ (u : sifive_uart_t) (addr len : Nat),
      sifive_uart_load u addr len = UartRes.failed ↔ (0x1000 ≤ addr ∨ 4 < len)) := by
  refine ⟨?_, ?_, ?_⟩
  · intro s addr len
    unfold virtioblk_load
    split_ifs with h1 h2 h3 h4 h5 <;> simp_all
    omega
  · intro s addr
    exact ⟨rfl, rfl⟩
  · intro u addr len
    unfold sifive_uart_load
    split_ifs with h1 h2 h3 h4 h5 h6 h7 h8 <;> simp_all

end VirtioSpec
